import Mathlib

/-!
Verification development for the AI-Chatbot repository.

The repository core consists of a TF-IDF knowledge-matching engine
(`ChatbotEngine` in `services/__init__.py`) and a chat-session lifecycle
(`ChatService` / `AgentService` in the same file).  This file embeds both
shallowly:

* the matching layer follows `ChatbotEngine.get_response` together with the
  behaviour of `TfidfVectorizer(max_features=1000, stop_words='english',
  ngram_range=(1, 2))` under its documented defaults (lower-casing, the token
  pattern `\b\w\w+\b` keeping runs of word characters of length at least two,
  the frozen English stop-word list, stop-word removal before n-gram
  generation, smoothed idf `ln((1+D)/(1+df)) + 1`, L2 normalisation) and
  `sklearn.metrics.pairwise.cosine_similarity`;
* the session layer follows `ChatService.send_message`,
  `AgentService.close_session` and the `ChatSession` / `ChatMessage` rows they
  mutate, as explicit state passing over a database snapshot; the database
  clock `db.func.now()` becomes an explicit `now` argument, and the chatbot
  engine reached through `self._get_chatbot()` becomes an explicit `respond`
  argument.

Real-valued quantities (idf weights, similarities) are modelled over `ℝ`;
the combinatorial layer (tokenisation, counts, vocabulary) is computable.
-/

namespace Chatbot

/-! ## Tokenisation (TfidfVectorizer defaults)

`build_analyzer` of the vectorizer lower-cases the document, extracts the
tokens matched by `\b\w\w+\b` (maximal runs of word characters, kept only if
their length is at least 2), removes English stop words, and then appends the
bigrams formed from the surviving token sequence (ngram_range = (1, 2)). -/

/-- A word character in the sense of the regex `\w`: letters, digits, or the
underscore (the corpus in this repository is ASCII). -/
def isWordChar (c : Char) : Bool := c.isAlphanum || c == '_'

/-- Splits a character stream into the maximal runs of word characters, the
matches of `\w+`; the accumulator holds the current run reversed. -/
def wordRuns : List Char → List Char → List (List Char)
  | [], acc => if acc.isEmpty then [] else [acc.reverse]
  | c :: cs, acc =>
      if isWordChar c then wordRuns cs (c :: acc)
      else if acc.isEmpty then wordRuns cs []
      else acc.reverse :: wordRuns cs []

/-- The tokens of the pattern `(?u)\b\w\w+\b` on the lower-cased text:
maximal runs of word characters of length at least two.  Lower-casing is
applied per character (`Char.toLower` agrees with Python's `str.lower` on
the ASCII corpus of this repository). -/
def tokenize (s : String) : List String :=
  ((wordRuns (s.toList.map Char.toLower) []).filter (fun r => 2 ≤ r.length)).map
    List.asString

/-- The frozen English stop-word list used by `stop_words='english'`
(`sklearn.feature_extraction.text.ENGLISH_STOP_WORDS`). -/
def stopWords : List String :=
  ["a", "about", "above", "across", "after", "afterwards", "again", "against",
   "all", "almost", "alone", "along", "already", "also", "although", "always",
   "am", "among", "amongst", "amoungst", "amount", "an", "and", "another",
   "any", "anyhow", "anyone", "anything", "anyway", "anywhere", "are",
   "around", "as", "at", "back", "be", "became", "because", "become",
   "becomes", "becoming", "been", "before", "beforehand", "behind", "being",
   "below", "beside", "besides", "between", "beyond", "bill", "both",
   "bottom", "but", "by", "call", "can", "cannot", "cant", "co", "con",
   "could", "couldnt", "cry", "de", "describe", "detail", "do", "done",
   "down", "due", "during", "each", "eg", "eight", "either", "eleven",
   "else", "elsewhere", "empty", "enough", "etc", "even", "ever", "every",
   "everyone", "everything", "everywhere", "except", "few", "fifteen",
   "fifty", "fill", "find", "fire", "first", "five", "for", "former",
   "formerly", "forty", "found", "four", "from", "front", "full", "further",
   "get", "give", "go", "had", "has", "hasnt", "have", "he", "hence", "her",
   "here", "hereafter", "hereby", "herein", "hereupon", "hers", "herself",
   "him", "himself", "his", "how", "however", "hundred", "i", "ie", "if",
   "in", "inc", "indeed", "interest", "into", "is", "it", "its", "itself",
   "keep", "last", "latter", "latterly", "least", "less", "ltd", "made",
   "many", "may", "me", "meanwhile", "might", "mill", "mine", "more",
   "moreover", "most", "mostly", "move", "much", "must", "my", "myself",
   "name", "namely", "neither", "never", "nevertheless", "next", "nine",
   "no", "nobody", "none", "noone", "nor", "not", "nothing", "now",
   "nowhere", "of", "off", "often", "on", "once", "one", "only", "onto",
   "or", "other", "others", "otherwise", "our", "ours", "ourselves", "out",
   "over", "own", "part", "per", "perhaps", "please", "put", "rather", "re",
   "same", "see", "seem", "seemed", "seeming", "seems", "serious", "several",
   "she", "should", "show", "side", "since", "sincere", "six", "sixty", "so",
   "some", "somehow", "someone", "something", "sometime", "sometimes",
   "somewhere", "still", "such", "system", "take", "ten", "than", "that",
   "the", "their", "them", "themselves", "then", "thence", "there",
   "thereafter", "thereby", "therefore", "therein", "thereupon", "these",
   "they", "thick", "thin", "third", "this", "those", "though", "three",
   "through", "throughout", "thru", "thus", "to", "together", "too", "top",
   "toward", "towards", "twelve", "twenty", "two", "un", "under", "until",
   "up", "upon", "us", "very", "via", "was", "we", "well", "were", "what",
   "whatever", "when", "whence", "whenever", "where", "whereafter",
   "whereas", "whereby", "wherein", "whereupon", "wherever", "whether",
   "which", "while", "whither", "who", "whoever", "whole", "whom", "whose",
   "why", "will", "with", "within", "without", "would", "yet", "you",
   "your", "yours", "yourself", "yourselves"]

/-- The bigrams of a token sequence, joined by a single space as sklearn
joins n-grams. -/
def bigrams : List String → List String
  | a :: b :: rest => (a ++ " " ++ b) :: bigrams (b :: rest)
  | _ => []

/-- The full analyzer: tokens with stop words removed, followed by the
bigrams of the surviving sequence (`_word_ngrams` filters stop words before
building n-grams). -/
def analyze (s : String) : List String :=
  let ts := (tokenize s).filter (fun t => !stopWords.contains t)
  ts ++ bigrams ts

/-! ## Vocabulary and counts -/

/-- Number of occurrences of term `t` in an analyzed document: the raw term
frequency used by `CountVectorizer`. -/
def termCount (doc : List String) (t : String) : Nat := doc.count t

/-- Total occurrences of `t` across the corpus, the quantity `max_features`
ranks by (`X.sum(axis=0)` in `_limit_features`). -/
def corpusCount (docs : List (List String)) (t : String) : Nat :=
  (docs.map (fun d => termCount d t)).sum

/-- Number of documents containing `t` (document frequency). -/
def docFreq (docs : List (List String)) (t : String) : Nat :=
  (docs.filter (fun d => d.contains t)).length

/-- The engine's vocabulary cap (`max_features=1000`). -/
def maxFeatures : Nat := 1000

/-- Lexicographic order on character lists by code point. -/
def charListLe : List Char → List Char → Bool
  | [], _ => true
  | _ :: _, [] => false
  | a :: as, b :: bs => if a = b then charListLe as bs else decide (a < b)

/-- The alphabetical (code-point lexicographic) order numpy sorts the
vocabulary terms by; agrees with the standard order on strings. -/
def strLe (a b : String) : Bool := charListLe a.toList b.toList

/-- Inserts `a` into a sorted list, before the first element it relates to:
the insertion step of a stable insertion sort. -/
def insertSorted (le : String → String → Bool) (a : String) :
    List String → List String
  | [] => [a]
  | b :: bs => if le a b then a :: b :: bs else b :: insertSorted le a bs

/-- Stable insertion sort (sorts like numpy over the distinct terms; on ties
of the ranking relation the earlier element stays first). -/
def sortBy (le : String → String → Bool) : List String → List String
  | [] => []
  | a :: as => insertSorted le a (sortBy le as)

/-- The fitted vocabulary: the distinct terms of the corpus sorted
alphabetically (`_sort_features`), capped to the `maxFeatures` terms of
highest total count (`_limit_features`; on equal counts numpy's unstable
argsort leaves the order unspecified, the model keeps the alphabetically
earlier term).  The kept terms stay in alphabetical order. -/
def buildVocab (docs : List (List String)) : List String :=
  let ts := sortBy strLe docs.flatten.dedup
  if ts.length ≤ maxFeatures then ts
  else
    let ranked := sortBy (fun a b => decide (corpusCount docs b ≤ corpusCount docs a)) ts
    let kept := ranked.take maxFeatures
    ts.filter (fun t => kept.contains t)

/-! ## The vector index and `ChatbotEngine.get_response`

A `VectorIndex` is the state `_initialize` leaves behind: the parallel
`self.questions` / `self.answers` arrays; the fitted vocabulary, the idf
weights and the document matrix `self.knowledge_vectors` are all determined
by the questions and are derived below.  The TF-IDF matrix rows are
L2-normalised by the vectorizer and `cosine_similarity` normalises again;
since normalising twice equals normalising once, `cosineSim` works on the
raw tf×idf weight vectors and divides by both norms.  A document whose
weight vector is zero keeps a zero row under sklearn's `normalize`, and its
cosine similarity against anything is 0; the model's division-by-zero
convention `x / 0 = 0` yields the same value.  (For a corpus whose
vocabulary is empty the spec defines every similarity to be 0, which is the
value this model produces.) -/

/-- Parallel question/answer snapshot held by the engine after a build. -/
structure VectorIndex where
  questions : List String
  answers : List String
deriving DecidableEq

/-- The analyzed documents of the index (one per question). -/
def docsOf (idx : VectorIndex) : List (List String) := idx.questions.map analyze

/-- The fitted vocabulary of the index. -/
def vocabOf (idx : VectorIndex) : List String := buildVocab (docsOf idx)

/-- Smoothed inverse document frequency, `idf(t) = ln((1+D)/(1+df(t))) + 1`
(`smooth_idf=True`). -/
noncomputable def idf (D dft : Nat) : ℝ :=
  Real.log ((1 + (D : ℝ)) / (1 + (dft : ℝ))) + 1

/-- The tf×idf weight of an analyzed document at vocabulary position `i`
(positions outside the vocabulary get the term `""`, which no document
contains). -/
noncomputable def tfidfWeight (idx : VectorIndex) (doc : List String) (i : Nat) : ℝ :=
  (termCount doc ((vocabOf idx).getD i "") : ℝ) *
    idf (docsOf idx).length (docFreq (docsOf idx) ((vocabOf idx).getD i ""))

/-- Dot product of two weight vectors over the first `n` vocabulary positions. -/
noncomputable def dotV (n : Nat) (u v : Nat → ℝ) : ℝ :=
  ∑ i ∈ Finset.range n, u i * v i

/-- Cosine similarity of two raw weight vectors; equals the dot product of
their L2-normalisations, and 0 whenever either vector is zero. -/
noncomputable def cosineSim (n : Nat) (u v : Nat → ℝ) : ℝ :=
  dotV n u v / (Real.sqrt (dotV n u u) * Real.sqrt (dotV n v v))

/-- The weight vector of document `j` of the index (a row of
`self.knowledge_vectors` before normalisation). -/
noncomputable def docVec (idx : VectorIndex) (j : Nat) : Nat → ℝ :=
  tfidfWeight idx ((docsOf idx).getD j [])

/-- The weight vector `self.vectorizer.transform([user_input])` assigns to the
query, over the same fitted vocabulary and idf weights. -/
noncomputable def queryVec (idx : VectorIndex) (input : String) : Nat → ℝ :=
  tfidfWeight idx (analyze input)

/-- The row `cosine_similarity(input_vector, self.knowledge_vectors)`:
one similarity per corpus entry, in corpus order. -/
noncomputable def similaritiesOf (idx : VectorIndex) (input : String) : List ℝ :=
  (List.range idx.questions.length).map
    (fun j => cosineSim (vocabOf idx).length (queryVec idx input) (docVec idx j))

/-- Maximum of a similarity row (`np.max`; defined as 0 on the empty row,
which `get_response` never takes it on). -/
noncomputable def listMax : List ℝ → ℝ
  | [] => 0
  | [x] => x
  | x :: y :: ys => max x (listMax (y :: ys))

/-- First index attaining the maximum (`np.argmax` returns the first
occurrence of the maximal value). -/
noncomputable def listArgmax : List ℝ → Nat
  | [] => 0
  | [_] => 0
  | x :: y :: ys => if listMax (y :: ys) ≤ x then 0 else listArgmax (y :: ys) + 1

/-- The message returned when the engine has no questions at all
(`if not self.questions or self.knowledge_vectors is None`). -/
def notReadyMsg : String :=
  "I\x27m still learning. Please contact a human agent for assistance."

/-- The built-in escalation message of `get_response`; it is a fixed string,
not supplied by the caller. -/
def builtinFallbackMsg : String :=
  "I\x27m not sure I understand. Let me connect you with a human agent who can help."

/-- The default of the `threshold` parameter of `get_response`. -/
noncomputable def defaultThreshold : ℝ := 3 / 10

/-- `ChatbotEngine.get_response(user_input, threshold)`: transforms the input
over the installed index, takes the maximum cosine similarity against the
document matrix and either answers with the best match or escalates with the
built-in fallback message.  The lazy `_initialize` at the top of the source
is the construction of `idx` itself; after a successful build
`self.knowledge_vectors is None` can only hold when the question list is
empty, so the not-ready guard reduces to that test. -/
noncomputable def get_response (idx : VectorIndex) (user_input : String)
    (threshold : ℝ) : String × ℝ × Bool :=
  if idx.questions = [] then (notReadyMsg, 0, true)
  else
    let sims := similaritiesOf idx user_input
    let m := listMax sims
    if threshold ≤ m then (idx.answers.getD (listArgmax sims) "", m, false)
    else (builtinFallbackMsg, m, true)

/-- Variant of the query operation following the spec sentence word for word:
"otherwise return a caller-supplied fallback message and `escalate = true`".
It differs from `get_response` only by taking the fallback message from the
caller; it exists to compare the source behaviour with the spec's. -/
noncomputable def query_callerFallback (idx : VectorIndex) (fallback : String)
    (user_input : String) (threshold : ℝ) : String × ℝ × Bool :=
  if idx.questions = [] then (notReadyMsg, 0, true)
  else
    let sims := similaritiesOf idx user_input
    let m := listMax sims
    if threshold ≤ m then (idx.answers.getD (listArgmax sims) "", m, false)
    else (fallback, m, true)

/-! ## Knowledge-base loading (`_load_knowledge_base`) -/

/-- A row of the `KnowledgeBase` table as the engine reads it. -/
structure KnowledgeEntry where
  question : String
  answer : String
  category : String
  tags : String
  is_active : Bool
deriving DecidableEq

/-- The built-in greeting questions substituted for an empty corpus. -/
def greetingQuestions : List String := ["hello", "hi", "greetings"]

/-- The built-in greeting answers substituted for an empty corpus. -/
def greetingAnswers : List String :=
  ["Hello! How can I help you today?",
   "Hi there! What can I assist you with?",
   "Greetings! How may I be of service?"]

/-- `_load_knowledge_base`: filters the table to `is_active=True`, installs
the greeting set when no active entry exists, and otherwise the parallel
question/answer arrays of the active entries. -/
def load_knowledge_base (items : List KnowledgeEntry) : VectorIndex :=
  let active := items.filter (fun e => e.is_active)
  if active.isEmpty then ⟨greetingQuestions, greetingAnswers⟩
  else ⟨active.map (fun e => e.question), active.map (fun e => e.answer)⟩

/-- The index built from the empty corpus: the greeting set. -/
def greetIdx : VectorIndex := ⟨greetingQuestions, greetingAnswers⟩

/-- The knowledge-base rows of the counterexample to C5 as stated: entry 0's
question consists of stop words only (zero vector), and entries 1 and 2
share the same question text. -/
def c5Entries : List KnowledgeEntry :=
  [⟨"to do", "Answer zero", "general", "", true⟩,
   ⟨"hello there", "Answer one", "general", "", true⟩,
   ⟨"hello there", "Answer two", "general", "", true⟩]

/-- The index the engine builds from `c5Entries`. -/
def c5Idx : VectorIndex := load_knowledge_base c5Entries

/-! ## Session lifecycle (`ChatService` / `AgentService`)

Database rows become records, the database snapshot a pair of row lists, and
each service method a function from snapshot to snapshot plus return value.
`db.func.now()` becomes the explicit argument `now`; message primary keys are
modelled by the running message count (only freshness matters).  The chatbot
reached through `self._get_chatbot()` enters `send_message` as the function
`respond`, generic in the type `α` of the similarity score it reports
(instantiated with `ℝ` for the real engine). -/

/-- A `ChatSession` row: id (primary key), owner, opaque token
(`session_id`), status string, and the three timestamps. -/
structure SessionRec where
  id : Nat
  user_id : Nat
  session_id : String
  status : String
  created_at : Nat
  escalated_at : Option Nat
  closed_at : Option Nat
deriving DecidableEq

/-- A `ChatMessage` row. -/
structure MessageRec where
  id : Nat
  session_id : Nat
  message_type : String
  content : String
  timestamp : Nat
  is_escalation_trigger : Bool
deriving DecidableEq

/-- The database snapshot the services read and write. -/
structure DbState where
  sessions : List SessionRec
  messages : List MessageRec
deriving DecidableEq

/-- The dictionary `send_message` returns on success. -/
structure SendResult (α : Type) where
  user_message : String
  bot_response : String
  similarity : α
  needs_escalation : Bool
  session_status : String
deriving DecidableEq

/-- The row update `send_message` commits on the addressed session: on
escalation of an active session the status becomes `"escalated"` and
`escalated_at` is set; otherwise the row is written back unchanged. -/
def sessionUpdate (target : Nat) (escalate : Bool) (now : Nat)
    (s : SessionRec) : SessionRec :=
  if s.id = target then
    { s with status := if escalate then "escalated" else s.status,
             escalated_at := if escalate then some now else s.escalated_at }
  else s

/-- `ChatService.send_message(session_id, user_id, message)`: looks the
session up by token and owner (`filter_by(session_id=..., user_id=...)
.first()`), returns `none` when absent, and otherwise appends the USER
message, asks the chatbot, appends the BOT message with the escalation
trigger flag, escalates the session when the chatbot escalates and the
session is still active, and returns the composed result.  Note the source
performs no status check of its own: a found session of any status is
processed. -/
def send_message {α : Type} (respond : String → String × α × Bool) (now : Nat)
    (st : DbState) (session_id : String) (user_id : Nat) (message : String) :
    DbState × Option (SendResult α) :=
  match st.sessions.find? (fun s => s.session_id == session_id && s.user_id == user_id) with
  | none => (st, none)
  | some session =>
      let user_msg : MessageRec :=
        ⟨st.messages.length, session.id, "user", message, now, false⟩
      let r := respond message
      let bot_msg : MessageRec :=
        ⟨st.messages.length + 1, session.id, "bot", r.1, now, r.2.2⟩
      let escalate := r.2.2 && session.status == "active"
      let st2 : DbState :=
        ⟨st.sessions.map (sessionUpdate session.id escalate now),
         st.messages ++ [user_msg, bot_msg]⟩
      (st2, some ⟨message, r.1, r.2.1, r.2.2,
                  if escalate then "escalated" else session.status⟩)

/-- `AgentService.close_session(session_id)`: primary-key lookup
(`ChatSession.query.get`), `False` when absent; otherwise the status becomes
`"closed"` and `closed_at` is set to the current time — with no check of the
previous status, so an already-closed session is overwritten. -/
def close_session (now : Nat) (st : DbState) (sid : Nat) : DbState × Bool :=
  if st.sessions.any (fun s => s.id == sid) then
    (⟨st.sessions.map (fun s =>
        if s.id = sid then { s with status := "closed", closed_at := some now } else s),
      st.messages⟩, true)
  else (st, false)

/-- One call against the session layer: a user message or an agent close. -/
inductive SessionOp where
  | send (now : Nat) (session_id : String) (user_id : Nat) (message : String)
  | close (now : Nat) (sid : Nat)
deriving DecidableEq

/-- State reached by one call (return values dropped). -/
def applyOp {α : Type} (respond : String → String × α × Bool)
    (st : DbState) : SessionOp → DbState
  | .send now sid uid msg => (send_message respond now st sid uid msg).1
  | .close now sid => (close_session now st sid).1

/-- State reached by a sequence of calls. -/
def applyOps {α : Type} (respond : String → String × α × Bool)
    (st : DbState) : List SessionOp → DbState
  | [] => st
  | op :: ops => applyOps respond (applyOp respond st op) ops

/-! ## The engine's shared mutable state (`retrain_model` / `_initialize`)

`ChatbotEngine` is a process-wide singleton whose fields are the only
engine-wide shared state.  `retrain_model` simply calls `_initialize`, which
mutates those fields one by one — there is no off-to-the-side build and no
atomic install (the only lock in the class guards `__new__`).  Under the
CPython GIL each single field assignment is atomic and a concurrent reader
may run between any two of them, so the rebuild is modelled as the ordered
list of its field writes.  `fitted_questions` stands for the corpus the
`TfidfVectorizer` was fitted on (`none` = the fresh unfitted vectorizer),
`knowledge_vectors` for the corpus whose document matrix is installed
(`none` = the Python `None`). -/

/-- The engine singleton's mutable fields. -/
structure EngineState where
  fitted_questions : Option (List String)
  knowledge_vectors : Option (List String)
  questions : List String
  answers : List String
deriving DecidableEq

/-- The atomic field writes `retrain_model` → `_initialize` →
`_load_knowledge_base` performs, in source order, when the (non-empty
after fallback) corpus it reads from the database is `newQ` / `newA`:
fresh vectorizer, `knowledge_vectors = None`, clear and reload the two
lists, then fit and install the new matrix. -/
def retrainWrites (newQ newA : List String) : List (EngineState → EngineState) :=
  [fun s => { s with fitted_questions := none },
   fun s => { s with knowledge_vectors := none },
   fun s => { s with questions := [] },
   fun s => { s with answers := [] },
   fun s => { s with questions := newQ },
   fun s => { s with answers := newA },
   fun s => { s with fitted_questions := some newQ, knowledge_vectors := some newQ }]

/-- The engine state after the first `k` field writes of a rebuild to
`newQ` / `newA`. -/
def afterWrites (k : Nat) (newQ newA : List String) (s : EngineState) : EngineState :=
  ((retrainWrites newQ newA).take k).foldl (fun st f => f st) s

/-- A fully installed engine state: vectorizer, matrix and the two lists all
from the same build. -/
def engineComplete (q a : List String) : EngineState := ⟨some q, some q, q, a⟩

/-- `get_response` with its two successive reads of the shared fields taken
at two instants of an interleaved rebuild: `sA` is the state at the lazy-init
check `if self.knowledge_vectors is None` (when it reads `None` the call
would enter a re-entrant `_initialize`, returned here as `none`), `sB` the
state at the not-ready guard and the remaining reads.  When `sB` is complete
this is exactly `get_response` on its index. -/
noncomputable def get_response_reads (sA sB : EngineState) (input : String)
    (threshold : ℝ) : Option (String × ℝ × Bool) :=
  if sA.knowledge_vectors = none then none
  else if sB.questions.isEmpty || sB.knowledge_vectors.isNone then
    some (notReadyMsg, 0, true)
  else some (get_response ⟨sB.questions, sB.answers⟩ input threshold)

/-- All `ChatSession` rows of primary key `i` are in a terminal status
(ESCALATED or CLOSED). -/
def terminalAt (st : DbState) (i : Nat) : Prop :=
  ∀ s ∈ st.sessions, s.id = i → s.status = "escalated" ∨ s.status = "closed"

/-! ## Basic facts about the weights and similarities -/

/-- Document frequency never exceeds the document count. -/
lemma docFreq_le_length (docs : List (List String)) (t : String) :
    docFreq docs t ≤ docs.length :=
  List.length_filter_le _ _

/-- Smoothed idf is at least 1 whenever `df ≤ D`, as it always is for a term
of a fitted corpus. -/
lemma one_le_idf {D dft : Nat} (hd : dft ≤ D) : 1 ≤ idf D dft := by
  unfold idf
  have h1 : (0 : ℝ) < 1 + (dft : ℝ) := by positivity
  have h2 : (1 : ℝ) + (dft : ℝ) ≤ 1 + (D : ℝ) := by
    have := (Nat.cast_le (α := ℝ)).mpr hd
    linarith
  have hlog := Real.log_nonneg ((one_le_div h1).mpr h2)
  linarith

/-- Every tf×idf weight is nonnegative. -/
lemma tfidfWeight_nonneg (idx : VectorIndex) (doc : List String) (i : Nat) :
    0 ≤ tfidfWeight idx doc i := by
  unfold tfidfWeight
  have h1 : (1 : ℝ) ≤ idf (docsOf idx).length
      (docFreq (docsOf idx) ((vocabOf idx).getD i "")) :=
    one_le_idf (docFreq_le_length _ _)
  have h0 : (0 : ℝ) ≤ (termCount doc ((vocabOf idx).getD i "") : ℝ) := by positivity
  nlinarith

/-- A weight vanishes at a vocabulary position whose term the document does
not contain. -/
lemma tfidfWeight_eq_zero (idx : VectorIndex) (doc : List String) (i : Nat)
    (h : termCount doc ((vocabOf idx).getD i "") = 0) :
    tfidfWeight idx doc i = 0 := by
  unfold tfidfWeight
  rw [h]
  simp

/-- A weight is positive at a vocabulary position whose term the document
contains. -/
lemma tfidfWeight_pos (idx : VectorIndex) (doc : List String) (i : Nat)
    (h : 1 ≤ termCount doc ((vocabOf idx).getD i "")) :
    0 < tfidfWeight idx doc i := by
  unfold tfidfWeight
  have h1 : (1 : ℝ) ≤ idf (docsOf idx).length
      (docFreq (docsOf idx) ((vocabOf idx).getD i "")) :=
    one_le_idf (docFreq_le_length _ _)
  have h0 : (1 : ℝ) ≤ (termCount doc ((vocabOf idx).getD i "") : ℝ) := by
    exact_mod_cast h
  nlinarith

/-- Dot products of entrywise-nonnegative vectors are nonnegative. -/
lemma dotV_nonneg {n : Nat} {u v : Nat → ℝ} (hu : ∀ i, 0 ≤ u i)
    (hv : ∀ i, 0 ≤ v i) : 0 ≤ dotV n u v := by
  unfold dotV
  exact Finset.sum_nonneg fun i _ => mul_nonneg (hu i) (hv i)

/-- The self dot product is positive as soon as one in-range entry is. -/
lemma dotV_self_pos {n : Nat} {u : Nat → ℝ} (hu : ∀ i, 0 ≤ u i)
    {i0 : Nat} (hi0 : i0 < n) (hpos : 0 < u i0) : 0 < dotV n u u := by
  unfold dotV
  exact Finset.sum_pos' (fun i _ => mul_nonneg (hu i) (hu i))
    ⟨i0, Finset.mem_range.mpr hi0, mul_pos hpos hpos⟩

/-- A dot product all of whose termwise products vanish is zero. -/
lemma dotV_eq_zero {n : Nat} {u v : Nat → ℝ}
    (h : ∀ i < n, u i * v i = 0) : dotV n u v = 0 := by
  unfold dotV
  exact Finset.sum_eq_zero fun i hi => h i (Finset.mem_range.mp hi)

/-- Cauchy–Schwarz for `dotV`. -/
lemma dotV_le_sqrt_mul_sqrt (n : Nat) (u v : Nat → ℝ) :
    dotV n u v ≤ Real.sqrt (dotV n u u) * Real.sqrt (dotV n v v) := by
  have hu : dotV n u u = ∑ i ∈ Finset.range n, u i ^ 2 := by
    unfold dotV; exact Finset.sum_congr rfl fun i _ => (sq (u i)).symm
  have hv : dotV n v v = ∑ i ∈ Finset.range n, v i ^ 2 := by
    unfold dotV; exact Finset.sum_congr rfl fun i _ => (sq (v i)).symm
  rw [hu, hv]
  exact Real.sum_mul_le_sqrt_mul_sqrt _ _ _

/-- Cosine similarity of entrywise-nonnegative vectors is nonnegative. -/
lemma cosineSim_nonneg {n : Nat} {u v : Nat → ℝ} (hu : ∀ i, 0 ≤ u i)
    (hv : ∀ i, 0 ≤ v i) : 0 ≤ cosineSim n u v := by
  unfold cosineSim
  exact div_nonneg (dotV_nonneg hu hv)
    (mul_nonneg (Real.sqrt_nonneg _) (Real.sqrt_nonneg _))

/-- Cosine similarity never exceeds 1 (also at zero vectors, where it is 0). -/
lemma cosineSim_le_one (n : Nat) (u v : Nat → ℝ) : cosineSim n u v ≤ 1 := by
  unfold cosineSim
  exact div_le_one_of_le₀ (dotV_le_sqrt_mul_sqrt n u v)
    (mul_nonneg (Real.sqrt_nonneg _) (Real.sqrt_nonneg _))

/-- Self-similarity of a vector with positive norm is exactly 1. -/
lemma cosineSim_self {n : Nat} {u : Nat → ℝ} (h : 0 < dotV n u u) :
    cosineSim n u u = 1 := by
  unfold cosineSim
  rw [Real.mul_self_sqrt h.le, div_self h.ne']

/-- Similarity against a vector with which the query shares no support is 0. -/
lemma cosineSim_eq_zero_of_dot_zero {n : Nat} {u v : Nat → ℝ}
    (h : dotV n u v = 0) : cosineSim n u v = 0 := by
  unfold cosineSim
  rw [h, zero_div]

/-! ## The maximum and first argmax of a similarity row -/

/-- Every element is bounded by `listMax` (`np.max`). -/
lemma le_listMax {l : List ℝ} {x : ℝ} (hx : x ∈ l) : x ≤ listMax l := by
  induction l with
  | nil => cases hx
  | cons a t ih =>
      cases t with
      | nil =>
          rcases List.mem_cons.mp hx with h | h
          · simp [listMax, h]
          · cases h
      | cons b u =>
          rcases List.mem_cons.mp hx with h | h
          · rw [h, listMax]; exact le_max_left _ _
          · exact le_trans (ih h) (by rw [listMax]; exact le_max_right _ _)

/-- The maximum of a nonempty row is attained. -/
lemma listMax_mem {l : List ℝ} (h : l ≠ []) : listMax l ∈ l := by
  induction l with
  | nil => exact absurd rfl h
  | cons a t ih =>
      cases t with
      | nil => rw [listMax]; exact List.mem_cons_self _ _
      | cons b u =>
          rw [listMax]
          rcases le_total a (listMax (b :: u)) with hle | hle
          · rw [max_eq_right hle]
            exact List.mem_cons_of_mem _ (ih (by simp))
          · rw [max_eq_left hle]
            exact List.mem_cons_self _ _

/-- `np.argmax` of a nonempty row is a valid index. -/
lemma listArgmax_lt {l : List ℝ} (h : l ≠ []) : listArgmax l < l.length := by
  induction l with
  | nil => exact absurd rfl h
  | cons a t ih =>
      cases t with
      | nil => rw [listArgmax]; simp
      | cons b u =>
          rw [listArgmax]
          by_cases hc : listMax (b :: u) ≤ a
          · rw [if_pos hc]; simp
          · rw [if_neg hc]
            have := ih (by simp)
            simpa [Nat.succ_lt_succ_iff] using this

/-- The element at the argmax is the maximum. -/
lemma getD_listArgmax {l : List ℝ} (h : l ≠ []) :
    l.getD (listArgmax l) 0 = listMax l := by
  induction l with
  | nil => exact absurd rfl h
  | cons a t ih =>
      cases t with
      | nil => rw [listArgmax, listMax]; rfl
      | cons b u =>
          rw [listArgmax, listMax]
          by_cases hc : listMax (b :: u) ≤ a
          · rw [if_pos hc, max_eq_left hc]; rfl
          · rw [if_neg hc, max_eq_right (le_of_not_le hc)]
            exact ih (by simp)

/-- Earlier positions than the argmax are strictly below the maximum: the
argmax is the FIRST position attaining it. -/
lemma listArgmax_first {l : List ℝ} :
    ∀ i < listArgmax l, l.getD i 0 < listMax l := by
  induction l with
  | nil => intro i hi; rw [listArgmax] at hi; cases hi
  | cons a t ih =>
      cases t with
      | nil => intro i hi; rw [listArgmax] at hi; cases hi
      | cons b u =>
          intro i hi
          rw [listArgmax] at hi
          by_cases hc : listMax (b :: u) ≤ a
          · rw [if_pos hc] at hi; cases hi
          · rw [if_neg hc] at hi
            have hmax : listMax (a :: b :: u) = listMax (b :: u) := by
              rw [listMax, max_eq_right (le_of_not_le hc)]
            cases i with
            | zero =>
                rw [hmax]
                exact lt_of_not_le hc
            | succ i' =>
                rw [hmax]
                exact ih i' (Nat.lt_of_succ_lt_succ hi)

/-! ## Facts about the similarity row of an index -/

/-- One similarity per corpus entry. -/
lemma similaritiesOf_length (idx : VectorIndex) (input : String) :
    (similaritiesOf idx input).length = idx.questions.length := by
  simp [similaritiesOf]

/-- The `j`-th similarity is the cosine of the query against document `j`. -/
lemma similaritiesOf_getD {idx : VectorIndex} {j : Nat} (input : String)
    (hj : j < idx.questions.length) :
    (similaritiesOf idx input).getD j 0 =
      cosineSim (vocabOf idx).length (queryVec idx input) (docVec idx j) := by
  unfold similaritiesOf
  rw [List.getD_eq_getElem _ _ (by simpa using hj)]
  simp

/-- Every entry of a similarity row is nonnegative. -/
lemma similaritiesOf_nonneg (idx : VectorIndex) (input : String) :
    ∀ x ∈ similaritiesOf idx input, 0 ≤ x := by
  intro x hx
  obtain ⟨j, -, rfl⟩ := List.mem_map.mp hx
  exact cosineSim_nonneg (fun i => tfidfWeight_nonneg idx _ i)
    (fun i => tfidfWeight_nonneg idx _ i)

/-- Every entry of a similarity row is at most 1. -/
lemma similaritiesOf_le_one (idx : VectorIndex) (input : String) :
    ∀ x ∈ similaritiesOf idx input, x ≤ 1 := by
  intro x hx
  obtain ⟨j, -, rfl⟩ := List.mem_map.mp hx
  exact cosineSim_le_one _ _ _

/-- A query whose text equals the `j`-th question produces exactly the `j`-th
weight vector: `transform` applies the same analyzer, vocabulary and idf
weights that `fit_transform` applied to the question. -/
lemma queryVec_eq_docVec (idx : VectorIndex) (j : Nat) (input : String)
    (hj : j < idx.questions.length) (hq : idx.questions.getD j "" = input) :
    queryVec idx input = docVec idx j := by
  unfold queryVec docVec
  have hdocs : (docsOf idx).getD j [] = analyze input := by
    unfold docsOf
    rw [List.getD_eq_getElem _ _ (by simpa using hj), List.getElem_map, ← hq,
      List.getD_eq_getElem _ _ hj]
  rw [hdocs]

/-- Zero similarity for a document sharing no vocabulary term with the query
(each vocabulary position misses the query or misses the document). -/
lemma sim_zero_of_counts (idx : VectorIndex) (input : String) (j : Nat)
    (h : ∀ i < (vocabOf idx).length,
      termCount (analyze input) ((vocabOf idx).getD i "") = 0 ∨
      termCount ((docsOf idx).getD j []) ((vocabOf idx).getD i "") = 0) :
    cosineSim (vocabOf idx).length (queryVec idx input) (docVec idx j) = 0 := by
  refine cosineSim_eq_zero_of_dot_zero (dotV_eq_zero fun i hi => ?_)
  rcases h i hi with hc | hc
  · rw [show queryVec idx input i = 0 from tfidfWeight_eq_zero idx _ i hc, zero_mul]
  · rw [show docVec idx j i = 0 from tfidfWeight_eq_zero idx _ i hc, mul_zero]

/-- A similarity row over a nonempty corpus is nonempty. -/
lemma similaritiesOf_ne_nil {idx : VectorIndex} (input : String)
    (hne : idx.questions ≠ []) : similaritiesOf idx input ≠ [] := by
  refine List.ne_nil_of_length_pos ?_
  rw [similaritiesOf_length]
  exact List.length_pos.mpr hne

/-- Unfolding `get_response` on the answering branch. -/
lemma get_response_of_le {idx : VectorIndex} {input : String} {θ : ℝ}
    (hne : idx.questions ≠ [])
    (hθ : θ ≤ listMax (similaritiesOf idx input)) :
    get_response idx input θ =
      (idx.answers.getD (listArgmax (similaritiesOf idx input)) "",
       listMax (similaritiesOf idx input), false) := by
  simp only [get_response]
  rw [if_neg hne, if_pos hθ]

/-- Unfolding `get_response` on the escalation branch. -/
lemma get_response_of_lt {idx : VectorIndex} {input : String} {θ : ℝ}
    (hne : idx.questions ≠ [])
    (hθ : listMax (similaritiesOf idx input) < θ) :
    get_response idx input θ =
      (builtinFallbackMsg, listMax (similaritiesOf idx input), true) := by
  simp only [get_response]
  rw [if_neg hne, if_neg (not_le.mpr hθ)]

/-- The similarity `get_response` returns is 0 (empty corpus) or a member of
the similarity row. -/
lemma get_response_sim_mem (idx : VectorIndex) (input : String) (θ : ℝ) :
    (get_response idx input θ).2.1 = 0 ∨
      (get_response idx input θ).2.1 ∈ similaritiesOf idx input := by
  by_cases h : idx.questions = []
  · left
    simp only [get_response]
    rw [if_pos h]
  · right
    by_cases hθ : θ ≤ listMax (similaritiesOf idx input)
    · rw [get_response_of_le h hθ]
      exact listMax_mem (similaritiesOf_ne_nil input h)
    · rw [get_response_of_lt h (not_le.mp hθ)]
      exact listMax_mem (similaritiesOf_ne_nil input h)

/-- When the query text equals the `j`-th question and document `j` has a
nonzero weight vector, the similarity row attains the value 1 at `j` and its
maximum is exactly 1. -/
lemma selfmatch_listMax (idx : VectorIndex) (input : String) (j : Nat)
    (hj : j < idx.questions.length) (hq : idx.questions.getD j "" = input)
    (hpos : 0 < dotV (vocabOf idx).length (docVec idx j) (docVec idx j)) :
    (similaritiesOf idx input).getD j 0 = 1 ∧
      listMax (similaritiesOf idx input) = 1 := by
  have hget : (similaritiesOf idx input).getD j 0 = 1 := by
    rw [similaritiesOf_getD input hj, queryVec_eq_docVec idx j input hj hq, cosineSim_self hpos]
  have hjlen : j < (similaritiesOf idx input).length := by
    rw [similaritiesOf_length]; exact hj
  have hmem : (1 : ℝ) ∈ similaritiesOf idx input := by
    rw [← hget, List.getD_eq_getElem _ _ hjlen]
    exact List.getElem_mem _
  have hne : idx.questions ≠ [] := by
    intro hcon
    rw [hcon] at hj
    cases hj
  exact ⟨hget, le_antisymm
    (similaritiesOf_le_one idx input _ (listMax_mem (similaritiesOf_ne_nil input hne)))
    (le_listMax hmem)⟩

/-- A query identical to the `j`-th question of an index whose `j`-th weight
vector is nonzero is answered (similarity 1, no escalation) with the answer
at the first maximal row position. -/
lemma selfmatch_get_response (idx : VectorIndex) (input : String) (j : Nat)
    {θ : ℝ} (hj : j < idx.questions.length)
    (hq : idx.questions.getD j "" = input)
    (hpos : 0 < dotV (vocabOf idx).length (docVec idx j) (docVec idx j))
    (hθ : θ ≤ 1) :
    get_response idx input θ =
      (idx.answers.getD (listArgmax (similaritiesOf idx input)) "", 1, false) := by
  have hne : idx.questions ≠ [] := by
    intro hcon
    rw [hcon] at hj
    cases hj
  have hm := (selfmatch_listMax idx input j hj hq hpos).2
  rw [get_response_of_le hne (hm ▸ hθ), hm]

/-- Positivity of a document's self dot product from one witnessing
vocabulary position its question contains. -/
lemma docVec_dot_pos (idx : VectorIndex) (j i : Nat)
    (hi : i < (vocabOf idx).length)
    (hc : 1 ≤ termCount ((docsOf idx).getD j []) ((vocabOf idx).getD i "")) :
    0 < dotV (vocabOf idx).length (docVec idx j) (docVec idx j) :=
  dotV_self_pos (fun k => tfidfWeight_nonneg idx _ k) hi
    (tfidfWeight_pos idx _ i hc)

/-! ## Concrete evaluations on the greeting index -/

/-- The similarity row of the query `"hello"` on the greeting index: the
query coincides with question 0 and shares no vocabulary term with the other
two documents. -/
lemma greet_sims_hello : similaritiesOf greetIdx "hello" = [1, 0, 0] := by
  have base : similaritiesOf greetIdx "hello" =
      [cosineSim (vocabOf greetIdx).length (queryVec greetIdx "hello") (docVec greetIdx 0),
       cosineSim (vocabOf greetIdx).length (queryVec greetIdx "hello") (docVec greetIdx 1),
       cosineSim (vocabOf greetIdx).length (queryVec greetIdx "hello") (docVec greetIdx 2)] := rfl
  have e0 : cosineSim (vocabOf greetIdx).length (queryVec greetIdx "hello")
      (docVec greetIdx 0) = 1 := by
    rw [queryVec_eq_docVec greetIdx 0 "hello" (by decide) (by decide)]
    exact cosineSim_self (docVec_dot_pos greetIdx 0 1 (by decide) (by decide))
  rw [base, e0, sim_zero_of_counts greetIdx "hello" 1 (by decide),
    sim_zero_of_counts greetIdx "hello" 2 (by decide)]

/-- The similarity row of a query sharing no vocabulary term with the
greeting corpus. -/
lemma greet_sims_nomatch : similaritiesOf greetIdx "qqqq zzzz" = [0, 0, 0] := by
  have base : similaritiesOf greetIdx "qqqq zzzz" =
      [cosineSim (vocabOf greetIdx).length (queryVec greetIdx "qqqq zzzz") (docVec greetIdx 0),
       cosineSim (vocabOf greetIdx).length (queryVec greetIdx "qqqq zzzz") (docVec greetIdx 1),
       cosineSim (vocabOf greetIdx).length (queryVec greetIdx "qqqq zzzz") (docVec greetIdx 2)] := rfl
  rw [base, sim_zero_of_counts greetIdx "qqqq zzzz" 0 (by decide),
    sim_zero_of_counts greetIdx "qqqq zzzz" 1 (by decide),
    sim_zero_of_counts greetIdx "qqqq zzzz" 2 (by decide)]

/-! ## Claim theorems: the matching engine -/

/-- C6: an empty active corpus installs the built-in greeting set (the index
is never empty), and `Query("hello")` then returns one of the fallback
answers — the first one, at similarity 1 — with `escalate = false`. -/
theorem c6_empty_corpus_greeting_fallback :
    load_knowledge_base [] = greetIdx ∧
    get_response greetIdx "hello" defaultThreshold =
      ("Hello! How can I help you today?", 1, false) ∧
    "Hello! How can I help you today?" ∈ greetingAnswers := by
  refine ⟨rfl, ?_, by decide⟩
  have hne : greetIdx.questions ≠ [] := by decide
  have hθ : defaultThreshold ≤ listMax (similaritiesOf greetIdx "hello") := by
    rw [greet_sims_hello]
    unfold defaultThreshold
    norm_num [listMax]
  rw [get_response_of_le hne hθ, greet_sims_hello]
  norm_num [listMax, listArgmax]
  decide

/-- C7: the similarity value `get_response` returns always lies in the
closed interval `[0, 1]`, for every index and every query text. -/
theorem c7_similarity_in_unit_interval (idx : VectorIndex) (input : String)
    (θ : ℝ) :
    0 ≤ (get_response idx input θ).2.1 ∧ (get_response idx input θ).2.1 ≤ 1 := by
  rcases get_response_sim_mem idx input θ with h | h
  · rw [h]
    norm_num
  · exact ⟨similaritiesOf_nonneg idx input _ h, similaritiesOf_le_one idx input _ h⟩

/-- C1 (amended): on a nonempty installed index, `get_response` computes the
maximum of the per-entry cosine similarities; when the threshold is met it
returns the answer of the best-matching entry — the earliest entry attaining
that maximum — with `escalate = false`, and otherwise the engine's built-in
fallback message (not a caller-supplied one) with `escalate = true`; in both
cases the returned similarity is that maximum. -/
theorem c1_threshold_branch (idx : VectorIndex) (input : String) (θ : ℝ)
    (hne : idx.questions ≠ [])
    (hlen : idx.answers.length = idx.questions.length) :
    (∀ x ∈ similaritiesOf idx input, x ≤ listMax (similaritiesOf idx input)) ∧
    listArgmax (similaritiesOf idx input) < idx.answers.length ∧
    (similaritiesOf idx input).getD (listArgmax (similaritiesOf idx input)) 0 =
      listMax (similaritiesOf idx input) ∧
    (∀ i < listArgmax (similaritiesOf idx input),
      (similaritiesOf idx input).getD i 0 < listMax (similaritiesOf idx input)) ∧
    (θ ≤ listMax (similaritiesOf idx input) →
      get_response idx input θ =
        (idx.answers.getD (listArgmax (similaritiesOf idx input)) "",
         listMax (similaritiesOf idx input), false)) ∧
    (listMax (similaritiesOf idx input) < θ →
      get_response idx input θ =
        (builtinFallbackMsg, listMax (similaritiesOf idx input), true)) := by
  have hsne := similaritiesOf_ne_nil input hne
  refine ⟨fun x hx => le_listMax hx, ?_, getD_listArgmax hsne, listArgmax_first,
    fun h => get_response_of_le hne h, fun h => get_response_of_lt hne h⟩
  rw [hlen]
  have h := listArgmax_lt hsne
  rwa [similaritiesOf_length] at h

/-- Witness for C1 at the greeting index and query `"hello"`. -/
theorem c1_threshold_branch_witness :
    (greetIdx.questions ≠ [] ∧
      greetIdx.answers.length = greetIdx.questions.length) ∧
    ((∀ x ∈ similaritiesOf greetIdx "hello",
        x ≤ listMax (similaritiesOf greetIdx "hello")) ∧
      listArgmax (similaritiesOf greetIdx "hello") < greetIdx.answers.length ∧
      (similaritiesOf greetIdx "hello").getD
          (listArgmax (similaritiesOf greetIdx "hello")) 0 =
        listMax (similaritiesOf greetIdx "hello") ∧
      (∀ i < listArgmax (similaritiesOf greetIdx "hello"),
        (similaritiesOf greetIdx "hello").getD i 0 <
          listMax (similaritiesOf greetIdx "hello")) ∧
      (defaultThreshold ≤ listMax (similaritiesOf greetIdx "hello") →
        get_response greetIdx "hello" defaultThreshold =
          (greetIdx.answers.getD (listArgmax (similaritiesOf greetIdx "hello")) "",
           listMax (similaritiesOf greetIdx "hello"), false)) ∧
      (listMax (similaritiesOf greetIdx "hello") < defaultThreshold →
        get_response greetIdx "hello" defaultThreshold =
          (builtinFallbackMsg, listMax (similaritiesOf greetIdx "hello"), true))) :=
  ⟨⟨by decide, by decide⟩,
   c1_threshold_branch greetIdx "hello" defaultThreshold (by decide) (by decide)⟩

/-- Counterexample to C1 as stated: the escalation message is the fixed
built-in string of the engine, not a caller-supplied fallback.  On a query
with no lexical overlap the source returns its built-in message, whereas the
spec's caller-supplied variant returns the caller's string `"CUSTOM"`. -/
theorem c1_fallback_not_caller_supplied :
    get_response greetIdx "qqqq zzzz" defaultThreshold =
      (builtinFallbackMsg, 0, true) ∧
    query_callerFallback greetIdx "CUSTOM" "qqqq zzzz" defaultThreshold =
      ("CUSTOM", 0, true) ∧
    builtinFallbackMsg ≠ "CUSTOM" := by
  have hne : greetIdx.questions ≠ [] := by decide
  have hmax : listMax (similaritiesOf greetIdx "qqqq zzzz") = 0 := by
    rw [greet_sims_nomatch]
    norm_num [listMax]
  have hlt : listMax (similaritiesOf greetIdx "qqqq zzzz") < defaultThreshold := by
    rw [hmax]
    unfold defaultThreshold
    norm_num
  refine ⟨by rw [get_response_of_lt hne hlt, hmax], ?_, by decide⟩
  simp only [query_callerFallback]
  rw [if_neg hne, if_neg (not_le.mpr hlt), hmax]

/-- C5 (amended): if the query text is identical to the `j`-th question and
that entry's TF-IDF vector is nonzero, the cosine similarity computed for
that entry is exactly 1, the best-matching entry also sits at similarity 1,
and `get_response` answers (at the default threshold 0.3) with the answer of
the earliest entry attaining that maximum, `escalate = false`. -/
theorem c5_self_similarity (idx : VectorIndex) (input : String) (j : Nat)
    (hj : j < idx.questions.length) (hq : idx.questions.getD j "" = input)
    (hpos : 0 < dotV (vocabOf idx).length (docVec idx j) (docVec idx j)) :
    (similaritiesOf idx input).getD j 0 = 1 ∧
    (similaritiesOf idx input).getD (listArgmax (similaritiesOf idx input)) 0 = 1 ∧
    get_response idx input defaultThreshold =
      (idx.answers.getD (listArgmax (similaritiesOf idx input)) "", 1, false) := by
  obtain ⟨hget, hmax⟩ := selfmatch_listMax idx input j hj hq hpos
  have hne : idx.questions ≠ [] := by
    intro hcon
    rw [hcon] at hj
    cases hj
  refine ⟨hget, ?_, selfmatch_get_response idx input j hj hq hpos
    (by unfold defaultThreshold; norm_num)⟩
  rw [getD_listArgmax (similaritiesOf_ne_nil input hne), hmax]

/-- Witness for C5 at the greeting index, query `"hello"`, entry 0. -/
theorem c5_self_similarity_witness :
    (0 < greetIdx.questions.length ∧ greetIdx.questions.getD 0 "" = "hello" ∧
      0 < dotV (vocabOf greetIdx).length (docVec greetIdx 0) (docVec greetIdx 0)) ∧
    ((similaritiesOf greetIdx "hello").getD 0 0 = 1 ∧
      (similaritiesOf greetIdx "hello").getD
          (listArgmax (similaritiesOf greetIdx "hello")) 0 = 1 ∧
      get_response greetIdx "hello" defaultThreshold =
        (greetIdx.answers.getD (listArgmax (similaritiesOf greetIdx "hello")) "",
         1, false)) :=
  ⟨⟨by decide, by decide, docVec_dot_pos greetIdx 0 1 (by decide) (by decide)⟩,
   c5_self_similarity greetIdx "hello" 0 (by decide) (by decide)
     (docVec_dot_pos greetIdx 0 1 (by decide) (by decide))⟩

/-- The similarity row of `"hello there"` on `c5Idx`: document 0 is the zero
vector, documents 1 and 2 coincide with the query. -/
lemma c5_sims_hello : similaritiesOf c5Idx "hello there" = [0, 1, 1] := by
  have base : similaritiesOf c5Idx "hello there" =
      [cosineSim (vocabOf c5Idx).length (queryVec c5Idx "hello there") (docVec c5Idx 0),
       cosineSim (vocabOf c5Idx).length (queryVec c5Idx "hello there") (docVec c5Idx 1),
       cosineSim (vocabOf c5Idx).length (queryVec c5Idx "hello there") (docVec c5Idx 2)] := rfl
  have e1 : cosineSim (vocabOf c5Idx).length (queryVec c5Idx "hello there")
      (docVec c5Idx 1) = 1 := by
    rw [queryVec_eq_docVec c5Idx 1 "hello there" (by decide) (by decide)]
    exact cosineSim_self (docVec_dot_pos c5Idx 1 0 (by decide) (by decide))
  have e2 : cosineSim (vocabOf c5Idx).length (queryVec c5Idx "hello there")
      (docVec c5Idx 2) = 1 := by
    rw [queryVec_eq_docVec c5Idx 2 "hello there" (by decide) (by decide)]
    exact cosineSim_self (docVec_dot_pos c5Idx 2 0 (by decide) (by decide))
  rw [base, sim_zero_of_counts c5Idx "hello there" 0 (by decide), e1, e2]

/-- The similarity row of `"to do"` on `c5Idx`: the query analyzes to the
empty token list, so every similarity is 0. -/
lemma c5_sims_todo : similaritiesOf c5Idx "to do" = [0, 0, 0] := by
  have base : similaritiesOf c5Idx "to do" =
      [cosineSim (vocabOf c5Idx).length (queryVec c5Idx "to do") (docVec c5Idx 0),
       cosineSim (vocabOf c5Idx).length (queryVec c5Idx "to do") (docVec c5Idx 1),
       cosineSim (vocabOf c5Idx).length (queryVec c5Idx "to do") (docVec c5Idx 2)] := rfl
  rw [base, sim_zero_of_counts c5Idx "to do" 0 (by decide),
    sim_zero_of_counts c5Idx "to do" 1 (by decide),
    sim_zero_of_counts c5Idx "to do" 2 (by decide)]

/-- Counterexample to C5 as stated, on the index built from `c5Entries`.
Entry 0's question `"to do"` is identical to the query `"to do"`, yet its
similarity is 0 (its tokens are all stop words, the vector is zero) and the
engine escalates instead of returning `"Answer zero"`.  Moreover for the
duplicated question `"hello there"`, entry 2 matches the query with
similarity 1 but the returned answer is entry 1's `"Answer one"`, not
entry 2's `"Answer two"`. -/
theorem c5_identical_text_counterexample :
    c5Idx.questions.getD 0 "" = "to do" ∧
    (similaritiesOf c5Idx "to do").getD 0 0 = 0 ∧
    get_response c5Idx "to do" defaultThreshold = (builtinFallbackMsg, 0, true) ∧
    c5Idx.questions.getD 2 "" = "hello there" ∧
    (similaritiesOf c5Idx "hello there").getD 2 0 = 1 ∧
    c5Idx.answers.getD 2 "" = "Answer two" ∧
    get_response c5Idx "hello there" defaultThreshold = ("Answer one", 1, false) ∧
    "Answer one" ≠ "Answer two" := by
  have hne : c5Idx.questions ≠ [] := by decide
  have hmax0 : listMax (similaritiesOf c5Idx "to do") = 0 := by
    rw [c5_sims_todo]
    norm_num [listMax]
  have hlt : listMax (similaritiesOf c5Idx "to do") < defaultThreshold := by
    rw [hmax0]
    unfold defaultThreshold
    norm_num
  have hsim2 : (similaritiesOf c5Idx "hello there").getD 2 0 = 1 := by
    rw [c5_sims_hello]
    rfl
  have hresp : get_response c5Idx "hello there" defaultThreshold =
      ("Answer one", 1, false) := by
    have hthr : defaultThreshold ≤ (1 : ℝ) := by
      unfold defaultThreshold
      norm_num
    have h := selfmatch_get_response c5Idx "hello there" 1 (by decide) (by decide)
      (docVec_dot_pos c5Idx 1 0 (by decide) (by decide)) hthr
    rw [h, c5_sims_hello]
    norm_num [listArgmax, listMax]
    decide
  refine ⟨by decide, by rw [c5_sims_todo]; rfl, ?_, by decide, hsim2, by decide, hresp,
    by decide⟩
  rw [get_response_of_lt hne hlt, hmax0]

/-! ## Session-layer lemmas -/

/-- The committed row update never changes the primary key. -/
lemma sessionUpdate_id (t : Nat) (e : Bool) (now : Nat) (s : SessionRec) :
    (sessionUpdate t e now s).id = s.id := by
  unfold sessionUpdate
  split <;> rfl

/-- With escalation off, the row is written back exactly as it was. -/
lemma sessionUpdate_false (t now : Nat) (s : SessionRec) :
    sessionUpdate t false now s = s := by
  unfold sessionUpdate
  split <;> rfl

/-- The committed row update leaves the status alone or sets `"escalated"`. -/
lemma sessionUpdate_status_cases (t : Nat) (e : Bool) (now : Nat) (s : SessionRec) :
    (sessionUpdate t e now s).status = s.status ∨
      (sessionUpdate t e now s).status = "escalated" := by
  unfold sessionUpdate
  split
  · cases e
    · left; rfl
    · right; rfl
  · left; rfl

/-- A user message cannot take any row of a terminal-status session id out
of the terminal statuses. -/
lemma send_message_preserves_terminal {α : Type}
    (respond : String → String × α × Bool) (now : Nat) (st : DbState)
    (sid : String) (uid : Nat) (msg : String) (i : Nat) (h : terminalAt st i) :
    terminalAt ((send_message respond now st sid uid msg).1) i := by
  unfold send_message
  cases hfind : st.sessions.find? (fun s => s.session_id == sid && s.user_id == uid) with
  | none => exact h
  | some sess =>
      intro s' hs' hid
      obtain ⟨s, hs, rfl⟩ := List.mem_map.mp hs'
      rw [sessionUpdate_id] at hid
      rcases sessionUpdate_status_cases sess.id _ now s with hc | hc
      · rw [hc]
        exact h s hs hid
      · rw [hc]
        left
        rfl

/-- Closing a session cannot take any row of a terminal-status session id
out of the terminal statuses. -/
lemma close_session_preserves_terminal (now : Nat) (st : DbState) (sid i : Nat)
    (h : terminalAt st i) : terminalAt ((close_session now st sid).1) i := by
  unfold close_session
  split
  · intro s' hs' hid
    obtain ⟨s, hs, rfl⟩ := List.mem_map.mp hs'
    by_cases hc : s.id = sid
    · rw [if_pos hc]
      right
      rfl
    · rw [if_neg hc]
      rw [if_neg hc] at hid
      exact h s hs hid
  · exact h

/-- One call of either kind preserves terminality. -/
lemma applyOp_preserves_terminal {α : Type}
    (respond : String → String × α × Bool) (st : DbState) (op : SessionOp)
    (i : Nat) (h : terminalAt st i) : terminalAt (applyOp respond st op) i := by
  cases op with
  | send now sid uid msg => exact send_message_preserves_terminal respond now st sid uid msg i h
  | close now sid => exact close_session_preserves_terminal now st sid i h

/-! ## Claim theorems: the session lifecycle -/

/-- C3: once every row of a session id is ESCALATED or CLOSED, no sequence
of `send_message` / `close_session` calls can bring its status back to
ACTIVE: `send_message` only ever writes `"escalated"` (and only onto an
active session) and `close_session` only ever writes `"closed"`. -/
theorem c3_status_monotonic {α : Type} (respond : String → String × α × Bool)
    (st : DbState) (i : Nat) (ops : List SessionOp) (h : terminalAt st i) :
    ∀ s ∈ (applyOps respond st ops).sessions, s.id = i → s.status ≠ "active" := by
  induction ops generalizing st with
  | nil =>
      intro s hs hid
      rcases h s hs hid with hc | hc <;> rw [hc] <;> decide
  | cons op ops ih =>
      exact ih (applyOp respond st op) (applyOp_preserves_terminal respond st op i h)

/-- Witness for C3: an escalated session stays non-ACTIVE across a user
message (with an escalating bot verdict) followed by a close. -/
theorem c3_status_monotonic_witness :
    terminalAt ⟨[⟨1, 7, "tok", "escalated", 0, some 1, none⟩], []⟩ 1 ∧
    (∀ s ∈ (applyOps (fun _ => ("bot reply", (), true))
        (⟨[⟨1, 7, "tok", "escalated", 0, some 1, none⟩], []⟩ : DbState)
        [SessionOp.send 2 "tok" 7 "still there", SessionOp.close 3 1]).sessions,
      s.id = 1 → s.status ≠ "active") :=
  ⟨by unfold terminalAt; decide,
   c3_status_monotonic (fun _ => ("bot reply", (), true))
     ⟨[⟨1, 7, "tok", "escalated", 0, some 1, none⟩], []⟩ 1
     [SessionOp.send 2 "tok" 7 "still there", SessionOp.close 3 1]
     (by unfold terminalAt; decide)⟩

/-- C9: when no session carries the given token for the given owner,
`send_message` returns `None` (the controller surfaces it as the
`SessionNotFound` error) and the database snapshot is exactly unchanged —
no message row and no session field is written. -/
theorem c9_not_found_no_mutation {α : Type}
    (respond : String → String × α × Bool) (now : Nat) (st : DbState)
    (session_id : String) (user_id : Nat) (message : String)
    (h : ∀ s ∈ st.sessions, ¬(s.session_id = session_id ∧ s.user_id = user_id)) :
    send_message respond now st session_id user_id message = (st, none) := by
  have hfind : st.sessions.find?
      (fun s => s.session_id == session_id && s.user_id == user_id) = none := by
    rw [List.find?_eq_none]
    intro s hs
    simp only [Bool.and_eq_true, beq_iff_eq, not_and]
    intro h1 h2
    exact h s hs ⟨h1, h2⟩
  unfold send_message
  rw [hfind]

/-- Witness for C9: a lookup with the right token but the wrong owner
mutates nothing. -/
theorem c9_not_found_no_mutation_witness :
    (∀ s ∈ (⟨[⟨1, 7, "tok", "active", 0, none, none⟩], []⟩ : DbState).sessions,
      ¬(s.session_id = "tok" ∧ s.user_id = 8)) ∧
    send_message (fun _ => ("bot reply", (), false)) 5
        (⟨[⟨1, 7, "tok", "active", 0, none, none⟩], []⟩ : DbState) "tok" 8 "hi there" =
      (⟨[⟨1, 7, "tok", "active", 0, none, none⟩], []⟩, none) :=
  ⟨by decide,
   c9_not_found_no_mutation (fun _ => ("bot reply", (), false)) 5
     ⟨[⟨1, 7, "tok", "active", 0, none, none⟩], []⟩ "tok" 8 "hi there" (by decide)⟩

/-- C10: a successful `send_message` against a session that is not ACTIVE
commits every session row back unchanged — in particular the status and
`escalated_at` it read — because the escalation branch requires
`session.status == "active"`; consequently an `escalated_at` set by the
ACTIVE→ESCALATED transition is never overwritten by any later
`send_message` call (each such later call satisfies these hypotheses). -/
theorem c10_nonactive_frame {α : Type} (respond : String → String × α × Bool)
    (now : Nat) (st : DbState) (session_id : String) (user_id : Nat)
    (message : String) (sess : SessionRec)
    (hfind : st.sessions.find?
      (fun s => s.session_id == session_id && s.user_id == user_id) = some sess)
    (hstat : sess.status ≠ "active") :
    ((send_message respond now st session_id user_id message).1).sessions =
      st.sessions ∧
    ((send_message respond now st session_id user_id message).2).isSome = true := by
  have hbeq : (sess.status == "active") = false := by
    rw [beq_eq_false_iff_ne]
    exact hstat
  have hmap : st.sessions.map (sessionUpdate sess.id false now) = st.sessions := by
    rw [show sessionUpdate sess.id false now = id from
      funext fun s => sessionUpdate_false sess.id now s]
    exact List.map_id _
  unfold send_message
  rw [hfind]
  refine ⟨?_, rfl⟩
  simp only [hbeq, Bool.and_false, hmap]

/-- Witness for C10 at an escalated session: the row (with its
`escalated_at = some 2`) survives a further user message untouched. -/
theorem c10_nonactive_frame_witness :
    ((⟨[⟨1, 7, "tok", "escalated", 0, some 2, none⟩], []⟩ : DbState).sessions.find?
        (fun s => s.session_id == "tok" && s.user_id == 7) =
      some ⟨1, 7, "tok", "escalated", 0, some 2, none⟩ ∧
      ("escalated" : String) ≠ "active") ∧
    (((send_message (fun _ => ("bot reply", (), true)) 9
        (⟨[⟨1, 7, "tok", "escalated", 0, some 2, none⟩], []⟩ : DbState)
        "tok" 7 "more").1).sessions =
      [⟨1, 7, "tok", "escalated", 0, some 2, none⟩] ∧
      ((send_message (fun _ => ("bot reply", (), true)) 9
        (⟨[⟨1, 7, "tok", "escalated", 0, some 2, none⟩], []⟩ : DbState)
        "tok" 7 "more").2).isSome = true) :=
  ⟨⟨by decide, by decide⟩,
   c10_nonactive_frame (fun _ => ("bot reply", (), true)) 9
     ⟨[⟨1, 7, "tok", "escalated", 0, some 2, none⟩], []⟩ "tok" 7 "more"
     ⟨1, 7, "tok", "escalated", 0, some 2, none⟩ (by decide) (by decide)⟩

/-- C2 is violated by the source: `send_message` performs no status check at
all, so a CLOSED session is not rejected — the user and bot messages are
appended and a success result is returned (only the escalation branch is
skipped, because the status is not `"active"`).  Concretely, on a closed
session the call returns a result and the message table grows by two. -/
theorem c2_closed_session_not_rejected :
    send_message (fun _ => ("bot reply", (), true)) 5
        (⟨[⟨1, 7, "tok", "closed", 0, none, some 3⟩], []⟩ : DbState) "tok" 7 "hello" =
      (⟨[⟨1, 7, "tok", "closed", 0, none, some 3⟩],
        [⟨0, 1, "user", "hello", 5, false⟩,
         ⟨1, 1, "bot", "bot reply", 5, true⟩]⟩,
       some ⟨"hello", "bot reply", (), true, "closed"⟩) := by
  decide

/-- C4 is violated by the source: `close_session` performs no status check,
so closing an already-CLOSED session returns `True` and overwrites
`closed_at` (here `some 3` becomes `some 9`) instead of failing as a
no-op. -/
theorem c4_close_overwrites_closed_at :
    close_session 9 (⟨[⟨1, 7, "tok", "closed", 0, none, some 3⟩], []⟩ : DbState) 1 =
      (⟨[⟨1, 7, "tok", "closed", 0, none, some 9⟩], []⟩, true) ∧
    some 9 ≠ some 3 := by
  decide

/-- C8 is violated by the source: `retrain_model` mutates the engine's
shared fields in place and installs nothing atomically.  In the interleaving
exhibited here, a query performs its lazy-init check while the old index is
still fully installed (so it does not rebuild), the rebuild then executes
its first two field writes (`self.vectorizer = TfidfVectorizer(...)`;
`self.knowledge_vectors = None`), and the query then reaches the not-ready
guard: it observes `knowledge_vectors is None` and returns the "still
learning" escalation at similarity 0.  Both the complete old index and the
complete new index answer the same query `"hello"` without escalating, so
the observed result is consistent with neither — a state no atomic
swap-on-rebuild could expose. -/
theorem c8_query_observes_partial_rebuild :
    get_response_reads (engineComplete ["hello"] ["Old greeting answer"])
        (afterWrites 2 ["hello", "hours"] ["New greeting answer", "New hours answer"]
          (engineComplete ["hello"] ["Old greeting answer"]))
        "hello" defaultThreshold = some (notReadyMsg, 0, true) ∧
    (get_response ⟨["hello"], ["Old greeting answer"]⟩ "hello"
      defaultThreshold).2.2 = false ∧
    (get_response ⟨["hello", "hours"], ["New greeting answer", "New hours answer"]⟩
      "hello" defaultThreshold).2.2 = false := by
  have hthr : defaultThreshold ≤ (1 : ℝ) := by
    unfold defaultThreshold
    norm_num
  refine ⟨?_, ?_, ?_⟩
  · unfold get_response_reads
    rw [if_neg (by decide), if_pos (by decide)]
  · rw [selfmatch_get_response ⟨["hello"], ["Old greeting answer"]⟩ "hello" 0
      (by decide) (by decide)
      (docVec_dot_pos ⟨["hello"], ["Old greeting answer"]⟩ 0 0 (by decide) (by decide))
      hthr]
  · rw [selfmatch_get_response
      ⟨["hello", "hours"], ["New greeting answer", "New hours answer"]⟩ "hello" 0
      (by decide) (by decide)
      (docVec_dot_pos ⟨["hello", "hours"], ["New greeting answer", "New hours answer"]⟩
        0 0 (by decide) (by decide))
      hthr]

end Chatbot
